import Mathlib

/-!
Verification development for the TextureRiggerTool repository
(`step1_logic.py`, `step2_logic.py`, `step3_logic.py`, `step3_uv_logic.py`,
`TextureRiggerTool.py`).

The host application's scene graph is modelled shallowly: node inventories
are lists of names, Python dictionaries and Maya attribute tables are
association lists, and host calls that can raise are driven by explicit
boolean outcome records.  Each definition carries a comment pointing at the
source lines it embeds.
-/

namespace TextureRigger

/-! Association-list dictionaries.  These model Python `dict` objects
(`self.textures_data[prefix]` in `TextureRiggerTool.py`) and keyed
attribute tables of the scene model.  `dset` replaces the first binding of
the key in place, or appends a new binding; `dgetOpt` returns the first
binding. -/

/-- Replace-or-append update of an association list, keeping the position
of an existing binding (Python dict update semantics). -/
def dset {α : Type} : List (String × α) → String → α → List (String × α)
  | [], k, v => [(k, v)]
  | (k', v') :: rest, k, v =>
      if k' = k then (k, v) :: rest else (k', v') :: dset rest k v

/-- Lookup in an association list (Python dict `.get`). -/
def dgetOpt {α : Type} : List (String × α) → String → Option α
  | [], _ => none
  | (k', v') :: rest, k => if k' = k then some v' else dgetOpt rest k

/-- Lookup with a default value. -/
def dgetD {α : Type} (d : List (String × α)) (k : String) (dflt : α) : α :=
  (dgetOpt d k).getD dflt

/-! Claim C1: the layered-texture stack of `connect_texture_to_mesh`
(`step3_logic.py`).  A layer's state is the incoming connection of
`layeredTexture.inputs[i].color`; the parallel `inputs[i].alpha`
connection is relocated identically by the same loop (lines 105-113), so
one plug per layer is tracked and textures are numbered. -/

/-- Embedding of `get_max_layer_index` (`step3_logic.py` lines 58-82):
the loop scans indices 0, 1, 2, ... in order, records every connected
index in `max_found`, and breaks once the index passes 100 — so exactly
indices 0..101 are probed.  Returns -1 when none of them is connected. -/
def get_max_layer_index (conns : Nat → Option Nat) : Int :=
  (List.range 102).foldl
    (fun maxFound i => if (conns i).isSome then (i : Int) else maxFound) (-1)

/-- One iteration of the `shift_layers_down` loop body
(`step3_logic.py` lines 94-113): when layer `i` has an incoming
connection it is disconnected from `inputs[i]` and force-connected to
`inputs[i+1]` (overwriting any connection already there); otherwise
nothing happens. -/
def move_layer (conns : Nat → Option Nat) (i : Nat) : Nat → Option Nat :=
  match conns i with
  | none => conns
  | some src => fun j => if j = i then none else if j = i + 1 then some src else conns j

/-- The loop of `shift_layers_down` processes indices `i`, `i-1`, ..., 0
in that order (`for i in range(max_index, -1, -1)`). -/
def shiftAux (conns : Nat → Option Nat) : Nat → (Nat → Option Nat)
  | 0 => move_layer conns 0
  | i + 1 => shiftAux (move_layer conns (i + 1)) i

/-- Embedding of `shift_layers_down` (`step3_logic.py` lines 84-113). -/
def shift_layers_down (conns : Nat → Option Nat) (maxIndex : Nat) : Nat → Option Nat :=
  shiftAux conns maxIndex

/-- State of a material's colour channel: nothing connected, a bare
texture connected directly, or a layeredTexture node with its per-layer
incoming connections. -/
inductive ColorChannel where
  | empty : ColorChannel
  | bare : Nat → ColorChannel
  | layered : (Nat → Option Nat) → ColorChannel

/-- Force-connect a texture to `inputs[0].color`. -/
def set_layer0 (conns : Nat → Option Nat) (tex : Nat) : Nat → Option Nat :=
  fun j => if j = 0 then some tex else conns j

/-- Embedding of the material-connection branches of
`connect_texture_to_mesh` (`step3_logic.py` lines 244-407): an
unconnected colour channel gets a fresh layeredTexture with the new
texture at index 0; a bare texture is moved to index 1 with the new
texture at index 0; an existing layeredTexture is probed with
`get_max_layer_index`, shifted with `shift_layers_down` when the result
is non-negative, and the new texture is connected at index 0. -/
def connect_texture_to_mesh : ColorChannel → Nat → ColorChannel
  | ColorChannel.empty, tex =>
      ColorChannel.layered (set_layer0 (fun _ => none) tex)
  | ColorChannel.bare t, tex =>
      ColorChannel.layered (fun j => if j = 0 then some tex else if j = 1 then some t else none)
  | ColorChannel.layered conns, tex =>
      if 0 ≤ get_max_layer_index conns then
        ColorChannel.layered
          (set_layer0 (shift_layers_down conns (get_max_layer_index conns).toNat) tex)
      else
        ColorChannel.layered (set_layer0 conns tex)

/-- Layer contents of a colour channel (a bare texture read as a
one-layer stack). -/
def layersOf : ColorChannel → Nat → Option Nat
  | ColorChannel.empty, _ => none
  | ColorChannel.bare t, j => if j = 0 then some t else none
  | ColorChannel.layered conns, j => conns j

/-- Sequential insertion of textures numbered 1..N onto an initially
empty material colour channel, as performed by N successive calls of
`connect_texture_to_mesh` on the same material. -/
def insertSeq : Nat → ColorChannel
  | 0 => ColorChannel.empty
  | n + 1 => connect_texture_to_mesh (insertSeq n) (n + 1)

/-- A layeredTexture state whose occupied indices are exactly 0..102,
layer `i` holding texture `i+1` (the shape reached by 103 sequential
inserts, renumbered). -/
def stack103 : Nat → Option Nat :=
  fun i => if i < 103 then some (i + 1) else none

/-! Claim C3: the UV clamp chain of `setup_follicle_connections`
(`step2_logic.py` lines 200-244).  The slide control's translateX feeds a
`multDoubleLinear` with second input 1, then a `multDoubleLinear` with the
control's `Precision` attribute, then an `addDoubleLinear` whose second
input is the follicle's parameterU captured at rig-construction time, and
finally a `clamp` node with min 0 / max 1 whose outputR drives
`follicle_shape.parameterU` (translateY / parameterV analogously). -/

/-- Maya `multDoubleLinear` node: product of the two inputs. -/
def multDoubleLinear (a b : ℚ) : ℚ := a * b

/-- Maya `addDoubleLinear` node: sum of the two inputs. -/
def addDoubleLinear (a b : ℚ) : ℚ := a + b

/-- One channel of a Maya `clamp` node: clamps the input between min and
max. -/
def clampChannel (lo hi x : ℚ) : ℚ := max lo (min hi x)

/-- Value driven into `follicle_shape.parameterU` by the wiring chain of
`setup_follicle_connections`: `clamp((tx * 1) * Precision + baseU, 0, 1)`
(`step2_logic.py` lines 207-243). -/
def parameterU_driven (tx precision baseU : ℚ) : ℚ :=
  clampChannel 0 1 (addDoubleLinear (multDoubleLinear (multDoubleLinear tx 1) precision) baseU)

/-- Value driven into `follicle_shape.parameterV`; same chain fed by
translateY and the captured parameterV (`step2_logic.py` lines 210-244). -/
def parameterV_driven (ty precision baseV : ℚ) : ℚ :=
  clampChannel 0 1 (addDoubleLinear (multDoubleLinear (multDoubleLinear ty 1) precision) baseV)

/-! Claims C4 and C5: module-level attribute resolution for
`step3_logic.py`, and the tail of `run_step3_uv_logic`
(`step3_uv_logic.py` lines 423-438), which invokes
`step3_logic.setup_sequence_texture` and
`step3_logic.hide_slide_ctrl_attributes` through Python attribute lookup
on the imported module.  A lookup of a name not defined in the module
raises `AttributeError`. -/

/-- Modelled Python exceptions crossing function boundaries. -/
inductive PyExn where
  | attributeError : String → PyExn
deriving DecidableEq

/-- The module-level function names actually defined in
`src/step3_logic.py`. -/
def step3_logic_module_defs : List String :=
  ["select_image_file", "select_alpha_image_file", "find_next_available_layer",
   "get_max_layer_index", "shift_layers_down", "connect_texture_to_mesh",
   "organize_scene_hierarchy", "find_bind_joint_from_follicle", "run_step3_logic"]

/-- Python attribute lookup on the `step3_logic` module followed by a
call: returns unit on success, raises `AttributeError` when the module has
no such attribute. -/
def call_step3_logic_attr (fname : String) : Except PyExn Unit :=
  if step3_logic_module_defs.contains fname then Except.ok ()
  else Except.error (PyExn.attributeError fname)

/-- Tail of `run_step3_uv_logic` after a successful texture connection
(`step3_uv_logic.py` lines 432-438): when `is_sequence` and a slide
control and file node are present it calls
`step3_logic.setup_sequence_texture`; then, whenever a slide control is
present, it calls `step3_logic.hide_slide_ctrl_attributes`.  Exceptions
from either attribute lookup propagate. -/
def run_step3_uv_logic_tail (file_node_created slide_ctrl_found is_seq : Bool) :
    Except PyExn Unit :=
  match (if is_seq && slide_ctrl_found && file_node_created then
           call_step3_logic_attr "setup_sequence_texture"
         else Except.ok ()) with
  | Except.error e => Except.error e
  | Except.ok _ =>
      if slide_ctrl_found then call_step3_logic_attr "hide_slide_ctrl_attributes"
      else Except.ok ()

/-! Claim C6: node bookkeeping of `TextureRiggerTool.py`.
`_populate_texture_selection_ui` (lines 288-292) initialises each
per-prefix texture record; `on_connect_all_textures_click` (lines
346-354) updates it after a successful connection; and
`on_delete_tool_nodes_click` (lines 405-446) collects and deletes
recorded nodes.  All `cmds.objExists` checks are modelled by membership
in the current node inventory, and host deletions succeed. -/

/-- Initial per-prefix texture record
(`_populate_texture_selection_ui`, lines 288-292). -/
def init_texture_entry : List (String × Option String) :=
  [("file_path", none), ("file_node", none), ("projection_node", none),
   ("place2d_node", none), ("place3d_node", none),
   ("layered_texture", none), ("material", none)]

/-- Update applied by `on_connect_all_textures_click` (lines 347-354)
after `run_step3_logic` succeeded: note the keys
`layered_texture_node` and `material_node`. -/
def record_connected_texture (d : List (String × Option String))
    (fileN projN p2dN p3dN layeredN matN : String) : List (String × Option String) :=
  dset (dset (dset (dset (dset (dset d
    "file_node" (some fileN))
    "projection_node" (some projN))
    "place2d_node" (some p2dN))
    "place3d_node" (some p3dN))
    "layered_texture_node" (some layeredN))
    "material_node" (some matN)

/-- Keys read back by `on_delete_tool_nodes_click` (line 412). -/
def texture_nodes_keys : List String :=
  ["file_node", "projection_node", "place2d_node", "place3d_node", "layered_texture"]

/-- Collection of texture-related nodes to delete for one prefix record
(`on_delete_tool_nodes_click`, lines 405-417): first the value under key
`material`, then the values under `texture_nodes_keys`, each filtered by
existence and de-duplicated against the accumulator. -/
def collect_texture_nodes (graph : List String)
    (d : List (String × Option String)) (acc0 : List String) : List String :=
  let acc1 :=
    match dgetD d "material" none with
    | some m => if graph.contains m && !(acc0.contains m) then acc0 ++ [m] else acc0
    | none => acc0
  texture_nodes_keys.foldl (fun acc k =>
    match dgetD d k none with
    | some n => if graph.contains n && !(acc.contains n) then acc ++ [n] else acc
    | none => acc) acc1

/-- Deletion loop of `on_delete_tool_nodes_click` (lines 429-440): each
target that still exists is deleted and counted; host deletions succeed
in this model. -/
def delete_existing_nodes (graph : List String) (targets : List String) :
    List String × Nat :=
  targets.foldl (fun p n => if p.1.contains n then (p.1.erase n, p.2 + 1) else p)
    (graph, 0)

/-- Concrete session for claim C6: the node inventory after one
successful texture connection in projection mode. -/
def c6_graph : List String :=
  ["fileN", "projN", "p2dN", "p3dN", "layerN", "matN"]

/-- Concrete per-prefix record after the `on_connect_all_textures_click`
update for that session. -/
def c6_entry : List (String × Option String) :=
  record_connected_texture init_texture_entry "fileN" "projN" "p2dN" "p3dN" "layerN" "matN"

/-- Nodes targeted by the cleanup handler for that session. -/
def c6_targets : List String := collect_texture_nodes c6_graph c6_entry []

/-! Claims C7 and C8: `organize_scene_hierarchy` (`step3_logic.py` lines
436-546).  The scene graph is modelled with unique short node names: a
node inventory, a parent map (nodes with no binding are world-parented,
matching a `None` result of `cmds.listRelatives(..., parent=True)`), a
read-only map from each follicle transform to its follicle shape nodes,
and a visibility map.  With unique short names a node's Maya long path
is determined by the parent map, so parent comparisons against group
long names become comparisons in the parent map, and the returned mesh
path is the mesh's name. -/

/-- Scene graph state for the scene-organisation step. -/
structure Scene where
  nodes : List String
  parentOf : List (String × Option String)
  shapesOf : List (String × List String)
  vis : List (String × Bool)
deriving DecidableEq

/-- Maya `cmds.group(empty=True, ...)`: create a node under the given
parent (`none` = world). -/
def addNode (s : Scene) (n : String) (par : Option String) : Scene :=
  { s with nodes := n :: s.nodes, parentOf := dset s.parentOf n par }

/-- Maya `cmds.parent`: move an existing node under a new parent. -/
def reparent (s : Scene) (child par : String) : Scene :=
  { s with parentOf := dset s.parentOf child (some par) }

/-- Maya `cmds.setAttr(node + ".visibility", b)`. -/
def setVis (s : Scene) (n : String) (b : Bool) : Scene :=
  { s with vis := dset s.vis n b }

/-- Maya `cmds.listRelatives(node, parent=True)`. -/
def getParent (s : Scene) (n : String) : Option String :=
  dgetD s.parentOf n none

/-- Top-level group creation guarded by `cmds.objExists`
(`step3_logic.py` lines 462-467, 492-497, 526-531): create the group at
world only when it does not exist yet. -/
def ensureGroup (s : Scene) (g : String) : Scene :=
  if g ∈ s.nodes then s else addNode s g none

/-- The reparent-only-when-needed pattern used for the mesh (lines
469-489), the follicle (lines 512-518) and the place3dTexture (lines
533-539): when the node exists and its current parent differs from the
target, reparent it; otherwise leave the scene unchanged. -/
def ensureParent (s : Scene) (child target : String) : Scene :=
  if child ∈ s.nodes then
    (if getParent s child ≠ some target then reparent s child target else s)
  else s

/-- The per-prefix control group block (lines 499-510): create
`prefix_Texture_ctrl_grp` under RIG when absent, otherwise reparent it
under RIG when its parent differs. -/
def step_cg (s : Scene) (cg : String) : Scene :=
  if cg ∈ s.nodes then
    (if getParent s cg ≠ some "RIG" then reparent s cg "RIG" else s)
  else addNode s cg (some "RIG")

/-- The follicle-shape visibility block (lines 520-523): set visibility
off on every follicle shape of the follicle transform. -/
def step_shapes (s : Scene) (f : String) : Scene :=
  (dgetD s.shapesOf f []).foldl (fun st sh => setVis st sh false) s

/-- Embedding of `organize_scene_hierarchy` (`step3_logic.py` lines
436-546).  The guard at lines 453-456 returns early with the resolved
mesh path when the follicle or place3d argument is falsy (`None`);
otherwise the steps run in source order: ensure GEO and file the mesh,
ensure RIG and the control group, file the follicle, hide its shapes,
ensure UTIL, file the place3dTexture, and switch UTIL's visibility off.
The returned string is the mesh's (possibly updated) path, which in the
unique-short-name model is the mesh name on every path. -/
def organize_scene_hierarchy (s : Scene) (mesh : String)
    (follicle place3d : Option String) (pfx : String) : Scene × String :=
  match follicle, place3d with
  | some f, some p3 =>
      (setVis
        (ensureParent
          (ensureGroup
            (step_shapes
              (ensureParent
                (step_cg
                  (ensureGroup (ensureParent (ensureGroup s "GEO") mesh "GEO") "RIG")
                  (pfx ++ "_Texture_ctrl_grp"))
                f (pfx ++ "_Texture_ctrl_grp"))
              f)
            "UTIL")
          p3 "UTIL")
        "UTIL" false,
       mesh)
  | _, _ => (s, mesh)

/-- Post-state contract of a successful organisation pass: the three
fixed groups and the control group exist, mesh/follicle/place3d (when
present) sit under their target parents, and the follicle shapes and the
UTIL group are hidden. -/
def Organized (s : Scene) (mesh f p3 cg : String) : Prop :=
  "GEO" ∈ s.nodes ∧ "RIG" ∈ s.nodes ∧ "UTIL" ∈ s.nodes ∧ cg ∈ s.nodes ∧
  (mesh ∈ s.nodes → getParent s mesh = some "GEO") ∧
  getParent s cg = some "RIG" ∧
  (f ∈ s.nodes → getParent s f = some cg) ∧
  (p3 ∈ s.nodes → getParent s p3 = some "UTIL") ∧
  (∀ sh ∈ dgetD s.shapesOf f [], dgetOpt s.vis sh = some false) ∧
  dgetOpt s.vis "UTIL" = some false

/-- Concrete scene for the claim C7 witness: a mesh, a follicle with one
follicle shape, and a place3dTexture, all at world. -/
def c7_scene : Scene :=
  { nodes := ["mesh1", "fol1", "shape1", "p31"],
    parentOf := [("shape1", some "fol1")],
    shapesOf := [("fol1", ["shape1"])],
    vis := [] }

/-! Claim C9: transient evaluation nodes of the forward and inverse UV
queries (`step1_logic.py` `get_world_space_at_uv`, lines 45-102, and
`step2_logic.py` `get_uv_at_point`, lines 4-78).  The scene graph carries
a node inventory and a fresh-id counter; every host call that can fail or
raise is driven by a boolean outcome field. -/

/-- Scene graph as seen by the transient-node queries. -/
structure Graph where
  nodes : List Nat
  freshId : Nat
deriving DecidableEq

/-- Maya `cmds.createNode`: allocates a fresh node. -/
def createNode (g : Graph) : Nat × Graph :=
  (g.freshId, { nodes := g.freshId :: g.nodes, freshId := g.freshId + 1 })

/-- Maya `cmds.delete` on one node. -/
def deleteNode (g : Graph) (n : Nat) : Graph :=
  { g with nodes := g.nodes.erase n }

/-- Host outcomes for one `get_world_space_at_uv` call.  Fields mirror,
in order, the exits of the source: mesh existence, transform lookup,
`createNode("uvPin")`, the worldMesh/outMesh attribute checks, the
geometry `connectAttr`, the `inputMatrix` check and `connectAttr`, the
coordinate `setAttr`s, and the `getAttr` of the output matrix. -/
structure UvPinEnv where
  meshExists : Bool
  hasTransformParent : Bool
  createNodeFails : Bool
  hasWorldMesh : Bool
  hasOutMesh : Bool
  connectGeometryFails : Bool
  hasInputMatrix : Bool
  connectMatrixFails : Bool
  setCoordinateFails : Bool
  getMatrixFails : Bool

/-- Embedding of `get_world_space_at_uv` (`step1_logic.py` lines 45-102).
The two guards before the `try` block return without creating a node; the
`except` handler returns `None`; the `finally` block deletes the uvPin
node whenever it was created and still exists.  The branch with no usable
mesh output attribute deletes the node explicitly and returns (lines
70-73). -/
def get_world_space_at_uv (env : UvPinEnv) (g0 : Graph) : Option Unit × Graph :=
  if env.meshExists = false then (none, g0)
  else if env.hasTransformParent = false then (none, g0)
  else if env.createNodeFails = true then (none, g0)
  else
    let pin := (createNode g0).1
    let g1 := (createNode g0).2
    if (env.hasWorldMesh || env.hasOutMesh) = false then (none, deleteNode g1 pin)
    else if env.connectGeometryFails = true then (none, deleteNode g1 pin)
    else if (env.hasInputMatrix && env.connectMatrixFails) = true then (none, deleteNode g1 pin)
    else if env.setCoordinateFails = true then (none, deleteNode g1 pin)
    else if env.getMatrixFails = true then (none, deleteNode g1 pin)
    else (some (), deleteNode g1 pin)

/-- Host outcomes for one `get_uv_at_point` call, mirroring the exits of
the source in order: selection-list add, DAG-path lookup,
`createNode("closestPointOnMesh")`, the transform-parent lookup (a
`TypeError` inside the `try` when absent), the matrix `connectAttr`, the
worldMesh/outMesh checks, the mesh `connectAttr`, the position
`setAttr`s, the result `getAttr`s, and a `None`-valued result. -/
structure CposEnv where
  addSelectionFails : Bool
  getDagPathFails : Bool
  createNodeFails : Bool
  hasTransformParent : Bool
  connectMatrixFails : Bool
  hasWorldMesh : Bool
  hasOutMesh : Bool
  connectMeshFails : Bool
  setPositionFails : Bool
  getUvFails : Bool
  uvIsNone : Bool
  uVal : Int
  vVal : Int

/-- Embedding of `get_uv_at_point` (`step2_logic.py` lines 4-78).  The two
guards before the `try` block return without creating a node; every exit
after `createNode` passes through the `finally` teardown (or the explicit
delete of the no-mesh-attribute branch, lines 50-53). -/
def get_uv_at_point (env : CposEnv) (g0 : Graph) : Option (Int × Int) × Graph :=
  if env.addSelectionFails = true then (none, g0)
  else if env.getDagPathFails = true then (none, g0)
  else if env.createNodeFails = true then (none, g0)
  else
    let cpos := (createNode g0).1
    let g1 := (createNode g0).2
    if env.hasTransformParent = false then (none, deleteNode g1 cpos)
    else if env.connectMatrixFails = true then (none, deleteNode g1 cpos)
    else if (env.hasWorldMesh || env.hasOutMesh) = false then (none, deleteNode g1 cpos)
    else if env.connectMeshFails = true then (none, deleteNode g1 cpos)
    else if env.setPositionFails = true then (none, deleteNode g1 cpos)
    else if env.getUvFails = true then (none, deleteNode g1 cpos)
    else if env.uvIsNone = true then (none, deleteNode g1 cpos)
    else (some (env.uVal, env.vVal), deleteNode g1 cpos)

/-! Claim C10: the decision flow of `run_step2_logic`
(`step2_logic.py` lines 307-377).  Host outcomes (mesh/locator existence,
the UV query, follicle creation, shape lookup, and the result of
`setup_follicle_connections`) are passed in; the embedding records which
nodes the driver deletes. -/

/-- Result of the step-2 driver: the returned pair plus the nodes the
driver itself deleted. -/
structure Step2Result where
  follicle : Option String
  control : Option String
  deleted : List String
deriving DecidableEq

/-- Embedding of `run_step2_logic` (`step2_logic.py` lines 307-377).
When the advanced setup returns a slide control the initial parent group
is deleted and the control returned; when it returns `None` the driver
falls back to the basic follicle and the initial parent group, deleting
nothing (lines 359-371).  A missing follicle shape deletes the follicle
transform (lines 347-352). -/
def run_step2_logic (mesh_ok locator_ok locator_pos_ok : Bool)
    (uv : Option (ℚ × ℚ)) (created : Option (String × String))
    (shape_found : Bool) (setup_ctrl : Option String) : Step2Result :=
  if mesh_ok = false then ⟨none, none, []⟩
  else if locator_ok = false then ⟨none, none, []⟩
  else if locator_pos_ok = false then ⟨none, none, []⟩
  else
    match uv with
    | none => ⟨none, none, []⟩
    | some _ =>
      match created with
      | none => ⟨none, none, []⟩
      | some (ft, ipg) =>
        if shape_found = false then ⟨none, none, [ft]⟩
        else
          match setup_ctrl with
          | some sc => ⟨some ft, some sc, [ipg]⟩
          | none => ⟨some ft, some ipg, []⟩

end TextureRigger

namespace TextureRigger

/-! Helper lemmas for claim C1. -/

/-- The probing fold of `get_max_layer_index` on a contiguous stack with
occupied indices exactly `0..n-1` returns `n - 1` whenever the probe
range covers the stack. -/
theorem get_max_foldl (c : Nat → Option Nat) (n : Nat) (hc : ∀ j, (c j).isSome ↔ j < n) :
    ∀ M, n ≤ M →
      (List.range M).foldl
        (fun maxFound i => if (c i).isSome then (i : Int) else maxFound) (-1)
        = (n : Int) - 1 := by
  intro M
  induction M with
  | zero =>
    intro h
    have hn : n = 0 := by omega
    subst hn
    simp
  | succ M ih =>
    intro h
    rw [List.range_succ, List.foldl_append]
    by_cases hnM : n ≤ M
    · rw [ih hnM]
      have hM : ¬ (c M).isSome := by rw [hc]; omega
      simp [hM]
    · have hn : n = M + 1 := by omega
      have hM : (c M).isSome := by rw [hc]; omega
      simp only [List.foldl_cons, List.foldl_nil, hM, if_true]
      omega

/-- `get_max_layer_index` on a contiguous stack of `n ≤ 102` layers. -/
theorem get_max_layer_index_stack (c : Nat → Option Nat) (n : Nat) (hn : n ≤ 102)
    (hc : ∀ j, (c j).isSome ↔ j < n) :
    get_max_layer_index c = (n : Int) - 1 := by
  unfold get_max_layer_index
  exact get_max_foldl c n hc 102 hn

/-- When index 101 is connected the probe stops there and reports 101,
regardless of deeper layers. -/
theorem get_max_layer_index_of_101 (c : Nat → Option Nat) (h : (c 101).isSome) :
    get_max_layer_index c = 101 := by
  unfold get_max_layer_index
  rw [show (102 : Nat) = 101 + 1 from rfl, List.range_succ, List.foldl_append]
  simp [h]

/-- Behaviour of the `shift_layers_down` loop when every processed index
`0..m` is occupied: layer 0 is vacated, layers `1..m+1` receive the
previous occupant of the index below, and all higher layers are
untouched.  The occupant of any layer above `m` is overwritten, not
relocated. -/
theorem shiftAux_spec (m : Nat) :
    ∀ (c : Nat → Option Nat), (∀ j, j ≤ m → (c j).isSome) →
      ∀ j, shiftAux c m j =
        if j = 0 then none else if j ≤ m + 1 then c (j - 1) else c j := by
  induction m with
  | zero =>
    intro c hocc j
    obtain ⟨s, hs⟩ := Option.isSome_iff_exists.mp (hocc 0 (Nat.le_refl 0))
    show move_layer c 0 j = _
    simp only [move_layer, hs]
    by_cases h0 : j = 0
    · simp [h0]
    · by_cases h1 : j = 1
      · subst h1; simp [hs]
      · have hj : ¬ j ≤ 0 + 1 := by omega
        simp only [if_neg h0, if_neg hj]
        rw [if_neg (by omega : ¬ j = 0 + 1)]
  | succ m ih =>
    intro c hocc j
    obtain ⟨s, hs⟩ := Option.isSome_iff_exists.mp (hocc (m + 1) (Nat.le_refl _))
    have hmove : ∀ x, move_layer c (m + 1) x =
        if x = m + 1 then none else if x = m + 1 + 1 then some s else c x := by
      intro x
      simp only [move_layer, hs]
    have hocc' : ∀ x, x ≤ m → ((move_layer c (m + 1)) x).isSome := by
      intro x hx
      rw [hmove x, if_neg (by omega), if_neg (by omega)]
      exact hocc x (by omega)
    show shiftAux (move_layer c (m + 1)) m j = _
    rw [ih (move_layer c (m + 1)) hocc' j]
    by_cases h0 : j = 0
    · simp [h0]
    · rw [if_neg h0, if_neg h0]
      by_cases hle : j ≤ m + 1
      · rw [if_pos hle, if_pos (by omega : j ≤ m + 1 + 1)]
        rw [hmove (j - 1), if_neg (by omega), if_neg (by omega)]
      · by_cases he : j = m + 2
        · subst he
          rw [if_neg hle, if_pos (by omega : m + 2 ≤ m + 1 + 1)]
          rw [hmove (m + 2), if_neg (by omega), if_pos (by omega : m + 2 = m + 1 + 1)]
          have h21 : m + 2 - 1 = m + 1 := by omega
          rw [h21, hs]
        · rw [if_neg hle, if_neg (by omega : ¬ j ≤ m + 1 + 1)]
          rw [hmove j, if_neg (by omega), if_neg (by omega)]

/-- Unfolding the layered branch of `connect_texture_to_mesh`. -/
theorem layersOf_connect_layered (c : Nat → Option Nat) (t : Nat) :
    layersOf (connect_texture_to_mesh (ColorChannel.layered c) t) =
      if 0 ≤ get_max_layer_index c then
        set_layer0 (shift_layers_down c (get_max_layer_index c).toNat) t
      else set_layer0 c t := by
  by_cases h : 0 ≤ get_max_layer_index c <;>
    (funext j; simp [connect_texture_to_mesh, layersOf, h])

/-- `connect_texture_to_mesh` always leaves the material fed by a
layeredTexture node. -/
theorem connect_eq_layered (ch : ColorChannel) (t : Nat) :
    connect_texture_to_mesh ch t
      = ColorChannel.layered (layersOf (connect_texture_to_mesh ch t)) := by
  cases ch with
  | empty => rfl
  | bare u => rfl
  | layered c =>
      by_cases h : 0 ≤ get_max_layer_index c <;>
        simp only [connect_texture_to_mesh, if_pos, if_neg, h, ite_true, ite_false] <;> rfl

/-- Each `insertSeq (n+1)` state is a layeredTexture state. -/
theorem insertSeq_eq_layered (n : Nat) :
    insertSeq (n + 1) = ColorChannel.layered (layersOf (insertSeq (n + 1))) := by
  show connect_texture_to_mesh (insertSeq n) (n + 1)
      = ColorChannel.layered (layersOf (connect_texture_to_mesh (insertSeq n) (n + 1)))
  exact connect_eq_layered _ _

/-- Layer contents after `N ≤ 103` sequential insertions: a strict
LIFO-by-index stack. -/
theorem insertSeq_char : ∀ N, N ≤ 103 → ∀ k,
    layersOf (insertSeq N) k = if k < N then some (N - k) else none := by
  intro N
  induction N with
  | zero => intro _ k; simp [insertSeq, layersOf]
  | succ M ih =>
    intro hN k
    cases M with
    | zero =>
      show layersOf (connect_texture_to_mesh (insertSeq 0) (0 + 1)) k = _
      by_cases h0 : k = 0 <;>
        simp [insertSeq, connect_texture_to_mesh, layersOf, set_layer0, h0, Nat.lt_one_iff]
    | succ m =>
      have hL := insertSeq_eq_layered m
      set c := layersOf (insertSeq (m + 1)) with hc
      have hchar : ∀ j, c j = if j < m + 1 then some (m + 1 - j) else none := by
        intro j; exact ih (by omega) j
      have hstack : ∀ j, (c j).isSome ↔ j < m + 1 := by
        intro j
        rw [hchar j]
        by_cases h : j < m + 1 <;> simp [h]
      have hmax := get_max_layer_index_stack c (m + 1) (by omega) hstack
      have hpos : 0 ≤ get_max_layer_index c := by rw [hmax]; omega
      have htn : (get_max_layer_index c).toNat = m := by rw [hmax]; omega
      have hocc : ∀ j, j ≤ m → (c j).isSome := by
        intro j hj; rw [hstack]; omega
      show layersOf (connect_texture_to_mesh (insertSeq (m + 1)) (m + 1 + 1)) k = _
      rw [hL, layersOf_connect_layered, if_pos hpos, htn]
      by_cases hk0 : k = 0
      · subst hk0
        simp [set_layer0]
      · have hset : set_layer0 (shift_layers_down c m) (m + 1 + 1) k
            = shiftAux c m k := by
          simp [set_layer0, shift_layers_down, hk0]
        rw [hset, shiftAux_spec m c hocc k, if_neg hk0]
        by_cases hle : k ≤ m + 1
        · rw [if_pos hle, hchar (k - 1), if_pos (by omega), if_pos (by omega : k < m + 1 + 1)]
          have harith : m + 1 - (k - 1) = m + 1 + 1 - k := by omega
          rw [harith]
        · rw [if_neg hle, hchar k, if_neg (by omega), if_neg (by omega : ¬ k < m + 1 + 1)]

/-- Claim C1 counterexample: on a material already fed by a
layeredTexture whose occupied indices are 0..102 (layer 102 holding
texture 103), inserting a new texture does not shift every occupied
layer down by one.  The probe stops at index 101, so after insertion
layer 103 is empty and layer 102 holds texture 102: the occupant of
layer 102 was overwritten instead of relocated, refuting the claim as
stated (and hence strict LIFO for N = 104 sequential inserts). -/
theorem C1_counterexample :
    stack103 102 = some 103 ∧
    layersOf (connect_texture_to_mesh (ColorChannel.layered stack103) 999) 103 = none ∧
    layersOf (connect_texture_to_mesh (ColorChannel.layered stack103) 999) 102 = some 102 := by
  have h101 : (stack103 101).isSome := by simp [stack103]
  have hmax : get_max_layer_index stack103 = 101 := get_max_layer_index_of_101 stack103 h101
  have hpos : 0 ≤ get_max_layer_index stack103 := by rw [hmax]; omega
  have htn : (get_max_layer_index stack103).toNat = 101 := by rw [hmax]; rfl
  have hocc : ∀ j, j ≤ 101 → (stack103 j).isSome := by
    intro j hj
    simp only [stack103]
    rw [if_pos (by omega)]
    rfl
  refine ⟨by simp [stack103], ?_, ?_⟩
  · rw [layersOf_connect_layered, if_pos hpos, htn]
    have hset : set_layer0 (shift_layers_down stack103 101) 999 103
        = shiftAux stack103 101 103 := by
      simp [set_layer0, shift_layers_down]
    rw [hset, shiftAux_spec 101 stack103 hocc 103]
    norm_num [stack103]
  · rw [layersOf_connect_layered, if_pos hpos, htn]
    have hset : set_layer0 (shift_layers_down stack103 101) 999 102
        = shiftAux stack103 101 102 := by
      simp [set_layer0, shift_layers_down]
    rw [hset, shiftAux_spec 101 stack103 hocc 102]
    norm_num [stack103]

/-- Claim C1 as amended: provided the stack stays within the probing
bound of `get_max_layer_index` — i.e. for at most 103 sequential
insertions onto an initially empty material — each insertion shifts
every occupied layer down by exactly one index (processed highest-first)
and connects the new texture at index 0, so after `N` insertions index 0
holds the most recent texture and the texture inserted k-th before the
most recent occupies index k. -/
theorem C1_theorem (N : Nat) (hN : N ≤ 103) (k : Nat) :
    layersOf (insertSeq N) k = if k < N then some (N - k) else none :=
  insertSeq_char N hN k

/-- Claim C1 witness: after inserting textures 1, 2, 3, layer 1 holds
texture 2. -/
theorem C1_witness :
    3 ≤ 103 ∧ layersOf (insertSeq 3) 1 = (if 1 < 3 then some (3 - 1) else none) :=
  ⟨by omega, C1_theorem 3 (by omega) 1⟩

/-! Dictionary lemmas shared by the scene-organisation proofs. -/

theorem dgetOpt_dset {α : Type} (d : List (String × α)) (k : String) (v : α) :
    dgetOpt (dset d k v) k = some v := by
  induction d with
  | nil => simp [dset, dgetOpt]
  | cons hd tl ih =>
    obtain ⟨k', v'⟩ := hd
    by_cases h : k' = k
    · simp [dset, dgetOpt, h]
    · simp [dset, dgetOpt, h, ih]

theorem dgetOpt_dset_ne {α : Type} (d : List (String × α)) (k k' : String) (v : α)
    (h : k' ≠ k) : dgetOpt (dset d k v) k' = dgetOpt d k' := by
  induction d with
  | nil =>
    have hk : ¬ k = k' := fun hh => h hh.symm
    simp [dset, dgetOpt, hk]
  | cons hd tl ih =>
    obtain ⟨a, b⟩ := hd
    by_cases ha : a = k
    · subst ha
      have hk : ¬ a = k' := fun hh => h hh.symm
      simp [dset, dgetOpt, hk]
    · by_cases ha' : a = k'
      · subst ha'
        simp [dset, dgetOpt, ha]
      · simp [dset, dgetOpt, ha, ha', ih]

theorem dset_noop {α : Type} (d : List (String × α)) (k : String) (v : α)
    (h : dgetOpt d k = some v) : dset d k v = d := by
  induction d with
  | nil => simp [dgetOpt] at h
  | cons hd tl ih =>
    obtain ⟨k', v'⟩ := hd
    by_cases hk : k' = k
    · subst hk
      have hv : v' = v := by simpa [dgetOpt] using h
      simp [dset, hv]
    · simp only [dgetOpt, if_neg hk] at h
      simp [dset, hk, ih h]

/-! Projection lemmas for the scene-organisation steps. -/

@[simp] theorem setVis_nodes (s : Scene) (n : String) (b : Bool) :
    (setVis s n b).nodes = s.nodes := rfl

@[simp] theorem setVis_parentOf (s : Scene) (n : String) (b : Bool) :
    (setVis s n b).parentOf = s.parentOf := rfl

@[simp] theorem setVis_shapesOf (s : Scene) (n : String) (b : Bool) :
    (setVis s n b).shapesOf = s.shapesOf := rfl

@[simp] theorem ensureGroup_vis (s : Scene) (g : String) :
    (ensureGroup s g).vis = s.vis := by
  by_cases h : g ∈ s.nodes <;> simp [ensureGroup, addNode, h]

@[simp] theorem ensureGroup_shapesOf (s : Scene) (g : String) :
    (ensureGroup s g).shapesOf = s.shapesOf := by
  by_cases h : g ∈ s.nodes <;> simp [ensureGroup, addNode, h]

@[simp] theorem ensureParent_nodes (s : Scene) (c t : String) :
    (ensureParent s c t).nodes = s.nodes := by
  unfold ensureParent
  split_ifs <;> rfl

@[simp] theorem ensureParent_vis (s : Scene) (c t : String) :
    (ensureParent s c t).vis = s.vis := by
  unfold ensureParent
  split_ifs <;> rfl

@[simp] theorem ensureParent_shapesOf (s : Scene) (c t : String) :
    (ensureParent s c t).shapesOf = s.shapesOf := by
  unfold ensureParent
  split_ifs <;> rfl

@[simp] theorem step_cg_vis (s : Scene) (cg : String) :
    (step_cg s cg).vis = s.vis := by
  unfold step_cg
  split_ifs <;> rfl

@[simp] theorem step_cg_shapesOf (s : Scene) (cg : String) :
    (step_cg s cg).shapesOf = s.shapesOf := by
  unfold step_cg
  split_ifs <;> rfl

theorem foldVis_nodes (L : List String) :
    ∀ s : Scene, (L.foldl (fun st sh => setVis st sh false) s).nodes = s.nodes := by
  induction L with
  | nil => intro s; rfl
  | cons a L ih => intro s; simp only [List.foldl_cons]; rw [ih]; rfl

theorem foldVis_parentOf (L : List String) :
    ∀ s : Scene, (L.foldl (fun st sh => setVis st sh false) s).parentOf = s.parentOf := by
  induction L with
  | nil => intro s; rfl
  | cons a L ih => intro s; simp only [List.foldl_cons]; rw [ih]; rfl

theorem foldVis_shapesOf (L : List String) :
    ∀ s : Scene, (L.foldl (fun st sh => setVis st sh false) s).shapesOf = s.shapesOf := by
  induction L with
  | nil => intro s; rfl
  | cons a L ih => intro s; simp only [List.foldl_cons]; rw [ih]; rfl

theorem foldVis_vis (L : List String) :
    ∀ s : Scene, (L.foldl (fun st sh => setVis st sh false) s).vis
      = L.foldl (fun d sh => dset d sh false) s.vis := by
  induction L with
  | nil => intro s; rfl
  | cons a L ih => intro s; simp only [List.foldl_cons]; rw [ih]; rfl

@[simp] theorem step_shapes_nodes (s : Scene) (f : String) :
    (step_shapes s f).nodes = s.nodes := foldVis_nodes _ s

@[simp] theorem step_shapes_parentOf (s : Scene) (f : String) :
    (step_shapes s f).parentOf = s.parentOf := foldVis_parentOf _ s

@[simp] theorem step_shapes_shapesOf (s : Scene) (f : String) :
    (step_shapes s f).shapesOf = s.shapesOf := foldVis_shapesOf _ s

/-! Membership and parent-map lemmas for the scene-organisation steps. -/

@[simp] theorem mem_ensureGroup (s : Scene) (g x : String) :
    x ∈ (ensureGroup s g).nodes ↔ (x ∈ s.nodes ∨ x = g) := by
  by_cases h : g ∈ s.nodes
  · simp only [ensureGroup, if_pos h]
    exact ⟨Or.inl, fun hx => hx.elim id (fun he => he ▸ h)⟩
  · simp [ensureGroup, addNode, h, or_comm]

@[simp] theorem mem_step_cg (s : Scene) (cg x : String) :
    x ∈ (step_cg s cg).nodes ↔ (x ∈ s.nodes ∨ x = cg) := by
  by_cases h : cg ∈ s.nodes
  · unfold step_cg
    rw [if_pos h]
    constructor
    · intro hx
      split_ifs at hx <;> exact Or.inl hx
    · intro hx
      have hx' : x ∈ s.nodes := hx.elim id (fun he => he ▸ h)
      split_ifs <;> exact hx'
  · simp [step_cg, addNode, h, or_comm]

theorem getParent_setVis (s : Scene) (n : String) (b : Bool) (x : String) :
    getParent (setVis s n b) x = getParent s x := rfl

theorem getParent_step_shapes (s : Scene) (f x : String) :
    getParent (step_shapes s f) x = getParent s x := by
  unfold getParent
  rw [step_shapes_parentOf]

theorem getParent_ensureGroup_ne (s : Scene) (g x : String) (h : x ≠ g) :
    getParent (ensureGroup s g) x = getParent s x := by
  by_cases hg : g ∈ s.nodes
  · simp [ensureGroup, hg]
  · simp [ensureGroup, addNode, hg, getParent, dgetD, dgetOpt_dset_ne _ _ _ _ h]

theorem getParent_ensureParent_ne (s : Scene) (c t x : String) (h : x ≠ c) :
    getParent (ensureParent s c t) x = getParent s x := by
  unfold ensureParent
  split_ifs <;> simp [reparent, getParent, dgetD, dgetOpt_dset_ne _ _ _ _ h]

theorem getParent_ensureParent_self (s : Scene) (c t : String) (h : c ∈ s.nodes) :
    getParent (ensureParent s c t) c = some t := by
  unfold ensureParent
  rw [if_pos h]
  by_cases hp : getParent s c ≠ some t
  · rw [if_pos hp]
    simp [reparent, getParent, dgetD, dgetOpt_dset]
  · rw [if_neg hp]
    push_neg at hp
    exact hp

theorem getParent_step_cg_ne (s : Scene) (cg x : String) (h : x ≠ cg) :
    getParent (step_cg s cg) x = getParent s x := by
  unfold step_cg
  split_ifs <;>
    simp [reparent, addNode, getParent, dgetD, dgetOpt_dset_ne _ _ _ _ h]

theorem getParent_step_cg_self (s : Scene) (cg : String) :
    getParent (step_cg s cg) cg = some "RIG" := by
  unfold step_cg
  by_cases hm : cg ∈ s.nodes
  · rw [if_pos hm]
    by_cases hp : getParent s cg ≠ some "RIG"
    · rw [if_pos hp]
      simp [reparent, getParent, dgetD, dgetOpt_dset]
    · rw [if_neg hp]
      push_neg at hp
      exact hp
  · rw [if_neg hm]
    simp [addNode, getParent, dgetD, dgetOpt_dset]

theorem vis_foldFalse_get (L : List String) :
    ∀ (v : List (String × Bool)) (k : String),
      dgetOpt (L.foldl (fun d sh => dset d sh false) v) k
        = if k ∈ L then some false else dgetOpt v k := by
  induction L with
  | nil => intro v k; simp
  | cons a L ih =>
    intro v k
    simp only [List.foldl_cons]
    rw [ih (dset v a false) k]
    by_cases hkL : k ∈ L
    · simp [hkL]
    · by_cases hka : k = a
      · subst hka
        simp [hkL, dgetOpt_dset]
      · simp [hkL, hka, dgetOpt_dset_ne v a k false hka]

/-! Fixpoint lemmas: each organisation step is the identity on a scene
that already satisfies its post-condition. -/

theorem ensureGroup_eq_of_mem (s : Scene) (g : String) (h : g ∈ s.nodes) :
    ensureGroup s g = s := by
  simp [ensureGroup, h]

theorem ensureParent_eq (s : Scene) (c t : String)
    (h : c ∈ s.nodes → getParent s c = some t) : ensureParent s c t = s := by
  unfold ensureParent
  by_cases hc : c ∈ s.nodes
  · rw [if_pos hc, if_neg (fun hne => hne (h hc))]
  · rw [if_neg hc]

theorem step_cg_eq (s : Scene) (cg : String) (hmem : cg ∈ s.nodes)
    (hpar : getParent s cg = some "RIG") : step_cg s cg = s := by
  unfold step_cg
  rw [if_pos hmem, if_neg (fun hne => hne hpar)]

theorem setVis_noop (s : Scene) (n : String) (h : dgetOpt s.vis n = some false) :
    setVis s n false = s := by
  unfold setVis
  rw [dset_noop s.vis n false h]

theorem foldVis_noop (L : List String) :
    ∀ s : Scene, (∀ sh ∈ L, dgetOpt s.vis sh = some false) →
      L.foldl (fun st sh => setVis st sh false) s = s := by
  induction L with
  | nil => intro s _; rfl
  | cons a L ih =>
    intro s h
    simp only [List.foldl_cons]
    rw [setVis_noop s a (h a (by simp))]
    exact ih s (fun sh hsh => h sh (by simp [hsh]))

theorem step_shapes_noop (s : Scene) (f : String)
    (h : ∀ sh ∈ dgetD s.shapesOf f [], dgetOpt s.vis sh = some false) :
    step_shapes s f = s :=
  foldVis_noop _ s h

/-- Equation of `organize_scene_hierarchy` on non-null arguments. -/
theorem organize_some_some (s : Scene) (mesh f p3 pfx : String) :
    organize_scene_hierarchy s mesh (some f) (some p3) pfx =
      (setVis
        (ensureParent
          (ensureGroup
            (step_shapes
              (ensureParent
                (step_cg
                  (ensureGroup (ensureParent (ensureGroup s "GEO") mesh "GEO") "RIG")
                  (pfx ++ "_Texture_ctrl_grp"))
                f (pfx ++ "_Texture_ctrl_grp"))
              f)
            "UTIL")
          p3 "UTIL")
        "UTIL" false,
       mesh) := rfl

/-- A scene satisfying `Organized` is a fixpoint of the organisation
pass. -/
theorem organize_of_organized (s : Scene) (mesh f p3 pfx : String)
    (h : Organized s mesh f p3 (pfx ++ "_Texture_ctrl_grp")) :
    organize_scene_hierarchy s mesh (some f) (some p3) pfx = (s, mesh) := by
  obtain ⟨hG, hR, hU, hCg, hM, hPCg, hF, hP3, hVsh, hVU⟩ := h
  rw [organize_some_some]
  rw [ensureGroup_eq_of_mem s "GEO" hG]
  rw [ensureParent_eq s mesh "GEO" hM]
  rw [ensureGroup_eq_of_mem s "RIG" hR]
  rw [step_cg_eq s (pfx ++ "_Texture_ctrl_grp") hCg hPCg]
  rw [ensureParent_eq s f (pfx ++ "_Texture_ctrl_grp") hF]
  rw [step_shapes_noop s f hVsh]
  rw [ensureGroup_eq_of_mem s "UTIL" hU]
  rw [ensureParent_eq s p3 "UTIL" hP3]
  rw [setVis_noop s "UTIL" hVU]

set_option maxHeartbeats 2000000 in
/-- After one organisation pass the scene satisfies `Organized`,
provided the mesh, follicle, place3dTexture and control-group names are
pairwise distinct and distinct from the three fixed group names. -/
theorem organized_after_organize (s : Scene) (mesh f p3 pfx : String)
    (hmG : mesh ≠ "GEO") (hmR : mesh ≠ "RIG") (hmU : mesh ≠ "UTIL")
    (hmC : mesh ≠ pfx ++ "_Texture_ctrl_grp")
    (hfG : f ≠ "GEO") (hfR : f ≠ "RIG") (hfU : f ≠ "UTIL")
    (hfC : f ≠ pfx ++ "_Texture_ctrl_grp")
    (hpG : p3 ≠ "GEO") (hpR : p3 ≠ "RIG") (hpU : p3 ≠ "UTIL")
    (hpC : p3 ≠ pfx ++ "_Texture_ctrl_grp")
    (hmf : mesh ≠ f) (hmp : mesh ≠ p3) (hfp : f ≠ p3)
    (hCU : pfx ++ "_Texture_ctrl_grp" ≠ "UTIL") :
    Organized ((organize_scene_hierarchy s mesh (some f) (some p3) pfx).1)
      mesh f p3 (pfx ++ "_Texture_ctrl_grp") := by
  rw [organize_some_some]
  set cg := pfx ++ "_Texture_ctrl_grp" with hcg
  set t1 := ensureGroup s "GEO" with ht1
  set t2 := ensureParent t1 mesh "GEO" with ht2
  set t3 := ensureGroup t2 "RIG" with ht3
  set t4 := step_cg t3 cg with ht4
  set t5 := ensureParent t4 f cg with ht5
  set t6 := step_shapes t5 f with ht6
  set t7 := ensureGroup t6 "UTIL" with ht7
  set t8 := ensureParent t7 p3 "UTIL" with ht8
  clear_value t8 t7 t6 t5 t4 t3 t2 t1 cg
  have hmemS : ∀ x, x ∈ (setVis t8 "UTIL" false).nodes ↔
      ((((x ∈ s.nodes ∨ x = "GEO") ∨ x = "RIG") ∨ x = cg) ∨ x = "UTIL") := by
    intro x
    show x ∈ t8.nodes ↔ _
    rw [ht8, ensureParent_nodes, ht7, mem_ensureGroup, ht6, step_shapes_nodes,
      ht5, ensureParent_nodes, ht4, mem_step_cg, ht3, mem_ensureGroup,
      ht2, ensureParent_nodes, ht1, mem_ensureGroup]
  have hvisS : (setVis t8 "UTIL" false).vis
      = dset ((dgetD s.shapesOf f []).foldl (fun d sh => dset d sh false) s.vis)
          "UTIL" false := by
    have h5 : t5.vis = s.vis := by
      rw [ht5, ht4, ht3, ht2, ht1]
      simp
    have h5s : t5.shapesOf = s.shapesOf := by
      rw [ht5, ht4, ht3, ht2, ht1]
      simp
    have h6 : t6.vis = (dgetD s.shapesOf f []).foldl (fun d sh => dset d sh false) s.vis := by
      rw [ht6]
      unfold step_shapes
      rw [foldVis_vis, h5, h5s]
    have h8 : t8.vis = t6.vis := by
      rw [ht8, ht7]
      simp
    show dset t8.vis "UTIL" false = _
    rw [h8, h6]
  have hshS : (setVis t8 "UTIL" false).shapesOf = s.shapesOf := by
    rw [ht8, ht7, ht6, ht5, ht4, ht3, ht2, ht1]
    simp
  show Organized (setVis t8 "UTIL" false) mesh f p3 cg
  unfold Organized
  refine ⟨?_, ?_, ?_, ?_, ?_, ?_, ?_, ?_, ?_, ?_⟩
  · rw [hmemS]
    exact Or.inl (Or.inl (Or.inl (Or.inr rfl)))
  · rw [hmemS]
    exact Or.inl (Or.inl (Or.inr rfl))
  · rw [hmemS]
    exact Or.inr rfl
  · rw [hmemS]
    exact Or.inl (Or.inr rfl)
  · intro hm
    rw [hmemS] at hm
    have hms : mesh ∈ s.nodes := by
      rcases hm with (((h | h) | h) | h) | h
      · exact h
      · exact absurd h hmG
      · exact absurd h hmR
      · exact absurd h hmC
      · exact absurd h hmU
    have hm1 : mesh ∈ t1.nodes := by
      rw [ht1]
      exact (mem_ensureGroup s "GEO" mesh).mpr (Or.inl hms)
    rw [getParent_setVis]
    rw [ht8, getParent_ensureParent_ne _ _ _ _ hmp]
    rw [ht7, getParent_ensureGroup_ne _ _ _ hmU]
    rw [ht6, getParent_step_shapes]
    rw [ht5, getParent_ensureParent_ne _ _ _ _ hmf]
    rw [ht4, getParent_step_cg_ne _ _ _ hmC]
    rw [ht3, getParent_ensureGroup_ne _ _ _ hmR]
    rw [ht2]
    exact getParent_ensureParent_self t1 mesh "GEO" hm1
  · rw [getParent_setVis]
    rw [ht8, getParent_ensureParent_ne _ _ _ _ (Ne.symm hpC)]
    rw [ht7, getParent_ensureGroup_ne _ _ _ hCU]
    rw [ht6, getParent_step_shapes]
    rw [ht5, getParent_ensureParent_ne _ _ _ _ (Ne.symm hfC)]
    rw [ht4]
    exact getParent_step_cg_self t3 cg
  · intro hf
    rw [hmemS] at hf
    have hfs : f ∈ s.nodes := by
      rcases hf with (((h | h) | h) | h) | h
      · exact h
      · exact absurd h hfG
      · exact absurd h hfR
      · exact absurd h hfC
      · exact absurd h hfU
    have hf4 : f ∈ t4.nodes := by
      rw [ht4, ht3, ht2, ht1]
      simp [hfs]
    rw [getParent_setVis]
    rw [ht8, getParent_ensureParent_ne _ _ _ _ hfp]
    rw [ht7, getParent_ensureGroup_ne _ _ _ hfU]
    rw [ht6, getParent_step_shapes]
    rw [ht5]
    exact getParent_ensureParent_self t4 f cg hf4
  · intro hp
    rw [hmemS] at hp
    have hps : p3 ∈ s.nodes := by
      rcases hp with (((h | h) | h) | h) | h
      · exact h
      · exact absurd h hpG
      · exact absurd h hpR
      · exact absurd h hpC
      · exact absurd h hpU
    have hp7 : p3 ∈ t7.nodes := by
      rw [ht7, ht6, ht5, ht4, ht3, ht2, ht1]
      simp [hps]
    rw [getParent_setVis, ht8]
    exact getParent_ensureParent_self t7 p3 "UTIL" hp7
  · intro sh hsh
    rw [hshS] at hsh
    rw [hvisS]
    by_cases hshU : sh = "UTIL"
    · subst hshU
      exact dgetOpt_dset _ _ _
    · rw [dgetOpt_dset_ne _ _ _ _ hshU, vis_foldFalse_get]
      rw [if_pos hsh]
  · rw [hvisS]
    exact dgetOpt_dset _ _ _

/-- Claim C7: calling `organize_scene_hierarchy` twice in a row with the
same arguments produces the same final scene state (and returned mesh
path) as calling it once: the three fixed top-level groups are created
at most once and reused, and every node is reparented only when its
current parent differs from the target. -/
theorem C7_theorem (s : Scene) (mesh f p3 pfx : String)
    (hmG : mesh ≠ "GEO") (hmR : mesh ≠ "RIG") (hmU : mesh ≠ "UTIL")
    (hmC : mesh ≠ pfx ++ "_Texture_ctrl_grp")
    (hfG : f ≠ "GEO") (hfR : f ≠ "RIG") (hfU : f ≠ "UTIL")
    (hfC : f ≠ pfx ++ "_Texture_ctrl_grp")
    (hpG : p3 ≠ "GEO") (hpR : p3 ≠ "RIG") (hpU : p3 ≠ "UTIL")
    (hpC : p3 ≠ pfx ++ "_Texture_ctrl_grp")
    (hmf : mesh ≠ f) (hmp : mesh ≠ p3) (hfp : f ≠ p3)
    (hCU : pfx ++ "_Texture_ctrl_grp" ≠ "UTIL") :
    organize_scene_hierarchy ((organize_scene_hierarchy s mesh (some f) (some p3) pfx).1)
        mesh (some f) (some p3) pfx
      = organize_scene_hierarchy s mesh (some f) (some p3) pfx := by
  have hpost := organized_after_organize s mesh f p3 pfx hmG hmR hmU hmC
    hfG hfR hfU hfC hpG hpR hpU hpC hmf hmp hfp hCU
  have hfix := organize_of_organized
    ((organize_scene_hierarchy s mesh (some f) (some p3) pfx).1) mesh f p3 pfx hpost
  rw [hfix]
  have hsnd : (organize_scene_hierarchy s mesh (some f) (some p3) pfx).2 = mesh := rfl
  exact Prod.ext_iff.mpr ⟨rfl, hsnd.symm⟩

/-- Claim C7 witness: the idempotence theorem applied to a concrete
scene holding a mesh, a follicle with one shape, and a place3dTexture. -/
theorem C7_witness :
    organize_scene_hierarchy
        ((organize_scene_hierarchy c7_scene "mesh1" (some "fol1") (some "p31") "eye").1)
        "mesh1" (some "fol1") (some "p31") "eye"
      = organize_scene_hierarchy c7_scene "mesh1" (some "fol1") (some "p31") "eye" :=
  C7_theorem c7_scene "mesh1" "fol1" "p31" "eye"
    (by decide) (by decide) (by decide) (by decide)
    (by decide) (by decide) (by decide) (by decide)
    (by decide) (by decide) (by decide) (by decide)
    (by decide) (by decide) (by decide) (by decide)

/-- Claim C8 (code bug): with a null projector argument — exactly how
`run_step3_uv_logic` calls it in UV mode — `organize_scene_hierarchy`
hits the guard at `step3_logic.py` lines 453-456 and returns the mesh
path with the scene untouched: no geometry or rig group is created or
reused and neither the mesh nor the attachment is reparented, contrary
to the claim that only the projector filing is omitted. -/
theorem C8_theorem (s : Scene) (mesh f pfx : String) :
    organize_scene_hierarchy s mesh (some f) none pfx = (s, mesh) := rfl

/-! Theorems for claims C3, C4, C5, C6, C9 and C10. -/

/-- Claim C3: for every slide-control translation value (including
arbitrarily large ones), every Precision value and every base UV captured
at rig construction, the values driven into the attachment's parameterU
and parameterV by the wiring chain (Precision-scaled translation added to
the base, then clamped) remain within [0,1]. -/
theorem C3_theorem (tx ty precision baseU baseV : ℚ) :
    (0 ≤ parameterU_driven tx precision baseU ∧ parameterU_driven tx precision baseU ≤ 1) ∧
    (0 ≤ parameterV_driven ty precision baseV ∧ parameterV_driven ty precision baseV ≤ 1) := by
  refine ⟨⟨le_max_left _ _, ?_⟩, ⟨le_max_left _ _, ?_⟩⟩ <;>
    exact max_le (by norm_num) (min_le_left _ _)

/-- Claim C3 witness: extreme translation +1000 on X still yields clamped
parameters. -/
theorem C3_witness :
    (0 ≤ parameterU_driven 1000 (4/5) (1/2) ∧ parameterU_driven 1000 (4/5) (1/2) ≤ 1) ∧
    (0 ≤ parameterV_driven 0 (4/5) (1/2) ∧ parameterV_driven 0 (4/5) (1/2) ≤ 1) :=
  C3_theorem 1000 0 (4/5) (1/2) (1/2)

/-- Claim C4 (code bug): in UV mode with the sequence flag enabled, a
slide control found and the file node created, the tail of
`run_step3_uv_logic` raises `AttributeError` because
`step3_logic.setup_sequence_texture` is not defined anywhere in the
repository — the sequence-texture setup is never applied. -/
theorem C4_theorem :
    run_step3_uv_logic_tail true true true
      = Except.error (PyExn.attributeError "setup_sequence_texture") := by
  rfl

/-- Claim C5 (code bug): the core operation `run_step3_uv_logic` lets an
exception escape to its caller — even with the sequence flag off, the
unconditional call to the undefined
`step3_logic.hide_slide_ctrl_attributes` raises `AttributeError`
whenever a slide control is present. -/
theorem C5_theorem :
    run_step3_uv_logic_tail true true false
      = Except.error (PyExn.attributeError "hide_slide_ctrl_attributes") := by
  rfl

/-- Claim C6 (code bug): after one successful texture connection, the
layered-texture and material nodes are recorded under keys
`layered_texture_node` / `material_node`, but the cleanup handler reads
keys `layered_texture` / `material`; consequently both nodes are absent
from the deletion targets and survive `on_delete_tool_nodes_click` even
though every host deletion succeeds. -/
theorem C6_theorem :
    dgetD c6_entry "layered_texture_node" none = some "layerN" ∧
    dgetD c6_entry "material_node" none = some "matN" ∧
    c6_targets = ["fileN", "projN", "p2dN", "p3dN"] ∧
    (delete_existing_nodes c6_graph c6_targets).1 = ["layerN", "matN"] ∧
    (delete_existing_nodes c6_graph c6_targets).2 = 4 := by
  decide

set_option maxHeartbeats 1000000 in
/-- Claim C9: for every pattern of host outcomes (success, failed
preconditions, or exceptions at any internal step), both the forward UV
query `get_world_space_at_uv` and the inverse query `get_uv_at_point`
return with the transient evaluation node deleted and the scene graph's
node set unchanged. -/
theorem C9_theorem :
    (∀ (env : UvPinEnv) (g : Graph), ((get_world_space_at_uv env g).2).nodes = g.nodes) ∧
    (∀ (env : CposEnv) (g : Graph), ((get_uv_at_point env g).2).nodes = g.nodes) := by
  constructor
  · intro env g
    unfold get_world_space_at_uv
    split_ifs <;> simp [createNode, deleteNode]
  · intro env g
    unfold get_uv_at_point
    split_ifs <;> simp [createNode, deleteNode]

/-- Claim C10: when the advanced slide-control setup fails (returns
`None`) after the basic follicle and initial parent group were created,
the step-2 driver returns the follicle transform together with the
initial parent group as a non-null result and deletes nothing. -/
theorem C10_theorem (ft ipg : String) (u v : ℚ) :
    run_step2_logic true true true (some (u, v)) (some (ft, ipg)) true none
      = ⟨some ft, some ipg, []⟩ := by
  rfl

end TextureRigger
